import Mathlib

/-!
# Verification of the casm guidance decision engine

Shallow embedding of the guidance decision engine:
* `ConfirmationDialogHandler` (src/services/confirmationDialogHandler.ts)
* `GuidanceOrchestrator` (guidanceOrchestrator, src/unnamed/part_004)
* `AutopilotMonitor` (src/services/autopilotMonitor.ts)
* `LLMClient` (src/services/llmClient.ts, the current config-keyed version)

JavaScript strings are modelled as `String`/`List Char`; JS numbers carrying
confidences are modelled as `ℚ` (all confidence arithmetic in the source is
exact in binary or compared only against constants where rounding cannot flip
the comparison); the small regular expressions used by the dialog handler are
modelled by an executable token matcher covering exactly the constructs they
use (literals, `.*` which does not cross newlines, `\s+`, and character
classes).
-/

namespace Casm

/-! ## String utilities (JS `String.prototype` fragments) -/

/-- `charsStartWith hay needle`: `hay` starts with `needle`. -/
def charsStartWith : List Char → List Char → Bool
  | _, [] => true
  | [], _ :: _ => false
  | a :: as, b :: bs => a == b && charsStartWith as bs

/-- `charsIncl hay needle`: `needle` occurs as a contiguous run in `hay`
(JS `String.prototype.includes`). -/
def charsIncl : List Char → List Char → Bool
  | [], needle => needle.isEmpty
  | a :: t, needle => charsStartWith (a :: t) needle || charsIncl t needle

/-- JS `hay.includes(needle)`. -/
def strIncludes (hay needle : String) : Bool :=
  charsIncl hay.toList needle.toList

/-- ASCII fragment of the JS `\s` class / whitespace trimmed by
`String.prototype.trim` (the inputs of interest are ASCII). -/
def jsSpace (c : Char) : Bool :=
  c == ' ' || c == '\t' || c == '\n' || c == '\r' || c == '\x0b' || c == '\x0c'

/-- JS `String.prototype.trim`. -/
def trimChars (cs : List Char) : List Char :=
  ((cs.dropWhile jsSpace).reverse.dropWhile jsSpace).reverse

/-- `dialogText.toLowerCase().trim()` from
`ConfirmationDialogHandler.analyzeConfirmationDialog` (ASCII lowering). -/
def normalize (s : String) : String :=
  String.mk (trimChars (s.toList.map Char.toLower))

/-- ASCII lowering of a whole string (JS `toLowerCase`). -/
def lowerStr (s : String) : String :=
  String.mk (s.toList.map Char.toLower)

/-! ## A miniature regex matcher

The handler's regexes only use literals, `.*`, `\s+` and `[...]+`; `.` in JS
does not match `'\n'`/`'\r'` (no dotall flag is set). A pattern is a list of
tokens; alternation is a list of patterns. -/

/-- One regex token. -/
inductive RTok where
  | lit (s : String)
  | anyStar
  | wsPlus
  | clsPlus (f : Char → Bool)

/-- Consume `0` or more non-newline characters, then continue with `k`
(the `.*` token, existential/backtracking semantics of `RegExp.test`). -/
def starScan (k : List Char → Bool) : List Char → Bool
  | [] => k []
  | c :: t => k (c :: t) || (!(c == '\n' || c == '\r') && starScan k t)

/-- Consume `1` or more characters satisfying `p`, then continue with `k`
(the `\s+` / `[...]+` tokens). -/
def plusScan (p : Char → Bool) (k : List Char → Bool) : List Char → Bool
  | [] => false
  | c :: t => p c && (k t || plusScan p k t)

/-- Match a token sequence against some beginning of the given characters. -/
def matchToks : List RTok → List Char → Bool
  | [], _ => true
  | .lit s :: rest, cs =>
      charsStartWith cs s.toList && matchToks rest (cs.drop s.toList.length)
  | .anyStar :: rest, cs => starScan (matchToks rest) cs
  | .wsPlus :: rest, cs => plusScan jsSpace (matchToks rest) cs
  | .clsPlus f :: rest, cs => plusScan f (matchToks rest) cs

/-- Unanchored match: the token sequence matches starting at some position. -/
def searchToks (toks : List RTok) : List Char → Bool
  | [] => matchToks toks []
  | c :: t => matchToks toks (c :: t) || searchToks toks t

/-- `re.test(s)` for an alternation of token sequences. -/
def regexTest (alts : List (List RTok)) (s : String) : Bool :=
  alts.any fun toks => searchToks toks s.toList

/-! ## Confirmation dialog handler data model -/

/-- The fields of `ProjectType` consulted by the dialog handler
(`framework` and `language`; the remaining fields are never read by it). -/
structure ProjectType where
  framework : String
  language : String
deriving DecidableEq

/-- The fields of `GitStatus` consulted by the dialog handler. -/
structure GitStatus where
  filesAdded : Nat
  filesDeleted : Nat
deriving DecidableEq

/-- The fields of `ProjectContext` consulted by the dialog handler. -/
structure ProjectContext where
  projectType : ProjectType
  gitStatus : Option GitStatus
  hasTests : Bool
deriving DecidableEq

/-- `ConfirmationDecision` (confirmationDialogHandler.ts). -/
structure ConfirmationDecision where
  shouldConfirm : Bool
  confidence : ℚ
  reasoning : String
  dialogType : String
  response : Option String := none
deriving DecidableEq

/-! ## Dialog family detection (the five `is...Dialog` regexes) -/

/-- `/run.*test|npm test|yarn test|test.*script/` -/
def isTestRunningDialog (text : String) : Bool :=
  regexTest [[.lit "run", .anyStar, .lit "test"], [.lit "npm test"],
    [.lit "yarn test"], [.lit "test", .anyStar, .lit "script"]] text

/-- `/create.*file|create.*\.(ts|js|tsx|jsx|py|go|rs)|want.*create/`
(the extension alternation is expanded; `RegExp.test` only needs existence). -/
def isFileCreationDialog (text : String) : Bool :=
  regexTest [[.lit "create", .anyStar, .lit "file"],
    [.lit "create", .anyStar, .lit ".ts"], [.lit "create", .anyStar, .lit ".js"],
    [.lit "create", .anyStar, .lit ".tsx"], [.lit "create", .anyStar, .lit ".jsx"],
    [.lit "create", .anyStar, .lit ".py"], [.lit "create", .anyStar, .lit ".go"],
    [.lit "create", .anyStar, .lit ".rs"],
    [.lit "want", .anyStar, .lit "create"]] text

/-- The character class `[a-zA-Z0-9-_@/]` of the package regexes. -/
def isPkgChar (c : Char) : Bool :=
  ('a' ≤ c && c ≤ 'z') || ('A' ≤ c && c ≤ 'Z') || ('0' ≤ c && c ≤ '9') ||
    c == '-' || c == '_' || c == '@' || c == '/'

/-- `/install.*package|npm install|yarn add|add.*dependency|install\s+[a-zA-Z0-9-_@/]+/` -/
def isPackageInstallDialog (text : String) : Bool :=
  regexTest [[.lit "install", .anyStar, .lit "package"], [.lit "npm install"],
    [.lit "yarn add"], [.lit "add", .anyStar, .lit "dependency"],
    [.lit "install", .wsPlus, .clsPlus isPkgChar]] text

/-- `/run.*build|npm run|yarn run|build.*script|start.*script|start.*dev|start.*server/` -/
def isBuildScriptDialog (text : String) : Bool :=
  regexTest [[.lit "run", .anyStar, .lit "build"], [.lit "npm run"],
    [.lit "yarn run"], [.lit "build", .anyStar, .lit "script"],
    [.lit "start", .anyStar, .lit "script"], [.lit "start", .anyStar, .lit "dev"],
    [.lit "start", .anyStar, .lit "server"]] text

/-- `/git.*commit|git.*add|git.*push|commit.*changes/` -/
def isGitOperationDialog (text : String) : Bool :=
  regexTest [[.lit "git", .anyStar, .lit "commit"], [.lit "git", .anyStar, .lit "add"],
    [.lit "git", .anyStar, .lit "push"], [.lit "commit", .anyStar, .lit "changes"]] text

/-! ## Family handlers -/

/-- `handleTestRunningDialog` (confirmationDialogHandler.ts lines 75-100). -/
def handleTestRunningDialog (_text : String) (ctx : ProjectContext) : ConfirmationDecision :=
  if ctx.hasTests then
    { shouldConfirm := true, confidence := mkRat 9 10,
      reasoning := "Project has tests - running tests is always recommended for verification",
      dialogType := "test-execution", response := some "1" }
  else
    { shouldConfirm := true, confidence := mkRat 7 10,
      reasoning := "Test execution is generally safe and provides valuable feedback",
      dialogType := "test-execution", response := some "1" }

/-- JS `\w` class. -/
def isWordChar (c : Char) : Bool :=
  ('a' ≤ c && c ≤ 'z') || ('A' ≤ c && c ≤ 'Z') || ('0' ≤ c && c ≤ '9') || c == '_'

/-- `text.match(/\.(\w+)/)`: the first `'.'` followed by at least one word
character wins; its capture is the maximal word-character run. -/
def extractFileType : List Char → Option (List Char)
  | [] => none
  | c :: t =>
    if c == '.' && (match t with | d :: _ => isWordChar d | [] => false) then
      some (t.takeWhile isWordChar)
    else extractFileType t

/-- The `compatibilityMap` table of `isFileTypeCompatible`. -/
def compatExts (k : String) : List String :=
  if k == "typescript" then ["ts", "tsx", "js", "jsx"]
  else if k == "javascript" then ["js", "jsx", "ts", "tsx"]
  else if k == "react" then ["tsx", "jsx", "ts", "js"]
  else if k == "next" then ["tsx", "jsx", "ts", "js"]
  else if k == "vue" then ["vue", "ts", "js"]
  else if k == "python" then ["py", "pyi"]
  else if k == "go" then ["go"]
  else if k == "rust" then ["rs"]
  else []

/-- `isFileTypeCompatible` (confirmationDialogHandler.ts lines 307-330). -/
def isFileTypeCompatible (fileType : String) (pt : ProjectType) : Bool :=
  (compatExts pt.framework ++ compatExts pt.language).contains (lowerStr fileType)

/-- `isCommonFilePattern`: eleven case-insensitive substring patterns
(the scrutinised text is already lowercase). -/
def isCommonFilePattern (text : String) : Bool :=
  ["service", "util", "helper", "config", "constant", "type", "interface",
    "component", "hook", "debug", "logger"].any fun p => strIncludes text p

/-- `handleFileCreationDialog` (confirmationDialogHandler.ts lines 111-156). -/
def handleFileCreationDialog (text : String) (ctx : ProjectContext) : ConfirmationDecision :=
  let fallback : ConfirmationDecision :=
    if regexTest [[.lit "service"], [.lit "util"], [.lit "helper"],
        [.lit "config"], [.lit "debug"]] text then
      { shouldConfirm := true, confidence := mkRat 4 5,
        reasoning := "Service/utility files are generally beneficial for project organization",
        dialogType := "file-creation", response := some "1" }
    else
      { shouldConfirm := false, confidence := mkRat 3 5,
        reasoning := "File creation requires manual review to ensure it fits project structure",
        dialogType := "file-creation" }
  match extractFileType text.toList with
  | some ft =>
    if isFileTypeCompatible (String.mk ft) ctx.projectType && isCommonFilePattern text then
      { shouldConfirm := true, confidence := mkRat 17 20,
        reasoning := "Creating " ++ String.mk ft ++ " file aligns with " ++
          ctx.projectType.framework ++ "/" ++ ctx.projectType.language ++ " project",
        dialogType := "file-creation", response := some "1" }
    else fallback
  | none => fallback

/-- `text.match(/install.*?([a-zA-Z0-9-_@/]+)/)`: the match starts at the
leftmost occurrence of `"install"` from which, without crossing a newline
(`.` excludes line terminators), a package character is reachable; the lazy
`.*?` stops at the first such character and the greedy class takes the
maximal run. -/
def findPkgRun : List Char → Option (List Char)
  | [] => none
  | c :: t =>
    if isPkgChar c then some ((c :: t).takeWhile isPkgChar)
    else if c == '\n' || c == '\r' then none
    else findPkgRun t

/-- The capture of `/install.*?([a-zA-Z0-9-_@/]+)/`, scanning start
positions left to right. -/
def extractPackageName : List Char → Option (List Char)
  | [] => none
  | c :: t =>
    if charsStartWith (c :: t) "install".toList then
      match findPkgRun ((c :: t).drop 7) with
      | some run => some run
      | none => extractPackageName t
    else extractPackageName t

/-- The `safePackages` table of `isKnownSafePackage`. -/
def safePackages (k : String) : List String :=
  if k == "react" then ["react-router", "react-dom", "styled-components", "axios", "lodash"]
  else if k == "typescript" then ["@types/", "ts-node", "typescript", "eslint", "prettier"]
  else if k == "next" then ["next", "react", "react-dom", "@next/", "styled-components"]
  else if k == "express" then ["express", "cors", "helmet", "morgan", "body-parser"]
  else if k == "node" then ["axios", "lodash", "moment", "uuid", "dotenv", "cors", "express"]
  else []

/-- `isKnownSafePackage` (confirmationDialogHandler.ts lines 350-378):
per-framework / per-language lists plus the fixed lint/test tooling list,
membership by substring (`packageName.includes(safe)`). -/
def isKnownSafePackage (packageName : String) (pt : ProjectType) : Bool :=
  let knownSafe := safePackages pt.framework ++ safePackages pt.language ++
    ["eslint", "prettier", "jest", "vitest"]
  knownSafe.any fun safe => strIncludes packageName safe

/-- `handlePackageInstallDialog` (confirmationDialogHandler.ts lines 167-197). -/
def handlePackageInstallDialog (text : String) (ctx : ProjectContext) : ConfirmationDecision :=
  let conservative : ConfirmationDecision :=
    { shouldConfirm := false, confidence := mkRat 1 2,
      reasoning := "Package installation requires manual review for security and compatibility",
      dialogType := "package-install" }
  match extractPackageName text.toList with
  | some p =>
    if isKnownSafePackage (String.mk p) ctx.projectType then
      { shouldConfirm := true, confidence := mkRat 4 5,
        reasoning := "Package \"" ++ String.mk p ++ "\" is commonly used in " ++
          ctx.projectType.framework ++ " projects",
        dialogType := "package-install", response := some "1" }
    else conservative
  | none => conservative

/-- `handleBuildScriptDialog` (confirmationDialogHandler.ts lines 208-242). -/
def handleBuildScriptDialog (text : String) (_ctx : ProjectContext) : ConfirmationDecision :=
  if regexTest [[.lit "build"], [.lit "compile"], [.lit "bundle"]] text then
    { shouldConfirm := true, confidence := mkRat 17 20,
      reasoning := "Build operations are safe and help verify code correctness",
      dialogType := "build-script", response := some "1" }
  else if regexTest [[.lit "dev"], [.lit "watch"],
      [.lit "start", .anyStar, .lit "dev"]] text then
    { shouldConfirm := true, confidence := mkRat 4 5,
      reasoning := "Development scripts are typically safe for local development",
      dialogType := "build-script", response := some "1" }
  else
    { shouldConfirm := false, confidence := mkRat 3 5,
      reasoning := "Custom scripts require manual review for safety",
      dialogType := "build-script" }

/-- `projectContext.gitStatus && (filesAdded > 0 || filesDeleted > 0)`. -/
def hasChanges (ctx : ProjectContext) : Bool :=
  match ctx.gitStatus with
  | some g => decide (0 < g.filesAdded) || decide (0 < g.filesDeleted)
  | none => false

/-- The staging regex `/git.*add|stage.*file/` of `handleGitOperationDialog`. -/
def gitStagingMatch (text : String) : Bool :=
  regexTest [[.lit "git", .anyStar, .lit "add"], [.lit "stage", .anyStar, .lit "file"]] text

/-- The commit regex `/commit/` of `handleGitOperationDialog`. -/
def gitCommitMatch (text : String) : Bool :=
  regexTest [[.lit "commit"]] text

/-- The push regex `/push/` of `handleGitOperationDialog`. -/
def gitPushMatch (text : String) : Bool :=
  regexTest [[.lit "push"]] text

/-- `handleGitOperationDialog` (confirmationDialogHandler.ts lines 251-302):
staging is checked first, then commit-with-pending-changes, then push. -/
def handleGitOperationDialog (text : String) (ctx : ProjectContext) : ConfirmationDecision :=
  if gitStagingMatch text then
    { shouldConfirm := true, confidence := mkRat 9 10,
      reasoning := "Staging files is a safe operation that can be easily undone",
      dialogType := "git-operation", response := some "1" }
  else if gitCommitMatch text && hasChanges ctx then
    { shouldConfirm := true, confidence := mkRat 3 4,
      reasoning := "Committing staged changes helps preserve progress",
      dialogType := "git-operation", response := some "1" }
  else if gitPushMatch text then
    { shouldConfirm := false, confidence := mkRat 2 5,
      reasoning := "Push operations should be manually reviewed before execution",
      dialogType := "git-operation" }
  else
    { shouldConfirm := false, confidence := mkRat 1 2,
      reasoning := "Git operations require careful manual review",
      dialogType := "git-operation" }

/-- The fall-through decision for unrecognized dialogs. -/
def unknownDialogDecision : ConfirmationDecision :=
  { shouldConfirm := false, confidence := 0,
    reasoning := "Unknown dialog type - manual confirmation required for safety",
    dialogType := "unknown" }

/-- `analyzeConfirmationDialog` (confirmationDialogHandler.ts lines 27-66):
ordered, first-match-wins dispatch over the five dialog families. -/
def analyzeConfirmationDialog (dialogText : String) (ctx : ProjectContext) : ConfirmationDecision :=
  let normalizedText := normalize dialogText
  if isTestRunningDialog normalizedText then handleTestRunningDialog normalizedText ctx
  else if isFileCreationDialog normalizedText then handleFileCreationDialog normalizedText ctx
  else if isPackageInstallDialog normalizedText then handlePackageInstallDialog normalizedText ctx
  else if isBuildScriptDialog normalizedText then handleBuildScriptDialog normalizedText ctx
  else if isGitOperationDialog normalizedText then handleGitOperationDialog normalizedText ctx
  else unknownDialogDecision

/-- `shouldAutoConfirm` delegates to `analyzeConfirmationDialog`. -/
def shouldAutoConfirm (dialogText : String) (ctx : ProjectContext) : ConfirmationDecision :=
  analyzeConfirmationDialog dialogText ctx

/-! ## Guidance orchestrator (src/unnamed/part_004)

`GuidanceResult.metadata` is a free-form JS object; the embedding keeps the
keys the orchestrator reads or writes (`error`, `noGuidanceReason`,
`analysisContext`). -/

/-- One entry of the `sourceResults` debug summary built by `composeResponse`. -/
structure SourceSummary where
  source : String
  shouldIntervene : Bool
  confidence : ℚ
  hasError : Bool
deriving DecidableEq

/-- The `analysisContext` metadata summary built by `composeResponse`. -/
structure AnalysisSummary where
  totalSources : Nat
  sourcesAnalyzed : Nat
  sourceResults : List SourceSummary
deriving DecidableEq

/-- The metadata keys of `GuidanceResult` used by the orchestrator. -/
structure GuidanceMeta where
  error : Bool := false
  noGuidanceReason : Option String := none
  analysisContext : Option AnalysisSummary := none
deriving DecidableEq

/-- `GuidanceResult` (types consumed by the orchestrator). -/
structure GuidanceResult where
  shouldIntervene : Bool
  confidence : ℚ
  guidance : Option String := none
  reasoning : String
  source : String
  priority : Int
  metadata : GuidanceMeta := {}
deriving DecidableEq

/-- `AnalysisContext`: one analysis request (the orchestrator only threads it
through to the sources). -/
structure AnalysisContext where
  terminalOutput : String
deriving DecidableEq

/-- A registered guidance source; `analyze` returning `.error` models a
thrown exception. -/
structure Source where
  id : String
  priority : Int
  canShortCircuit : Bool
  analyze : AnalysisContext → Except String GuidanceResult

/-- The short-circuit test of `generateGuidance`:
`result.shouldIntervene && result.confidence >= 0.9 && source.canShortCircuit`. -/
def scTriggers (s : Source) (r : GuidanceResult) : Bool :=
  r.shouldIntervene && decide (mkRat 9 10 ≤ r.confidence) && s.canShortCircuit

/-- The substituted result when a source's `analyze` throws
(generateGuidance's catch block). -/
def errorResult (s : Source) (msg : String) : GuidanceResult :=
  { shouldIntervene := false, confidence := 0,
    reasoning := "Analysis failed: " ++ msg,
    source := s.id, priority := s.priority,
    metadata := { error := true } }

/-- `createNoGuidanceResult`. -/
def createNoGuidanceResult (reasoning : String) : GuidanceResult :=
  { shouldIntervene := false, confidence := 0, reasoning := reasoning,
    source := "orchestrator", priority := 999,
    metadata := { noGuidanceReason := some reasoning } }

/-- `composeResponse`: keep the winning result's fields, append attribution
to `reasoning`, attach the per-source summary. -/
def composeResponse (allResults : List GuidanceResult) (primaryResult : GuidanceResult) :
    GuidanceResult :=
  let sourceCount := (allResults.filter fun r => !r.metadata.error).length
  { primaryResult with
    reasoning := primaryResult.reasoning ++ " [Source: " ++ primaryResult.source ++
      ", analyzed by " ++ toString sourceCount ++ " sources]"
    metadata := { primaryResult.metadata with
      analysisContext := some
        { totalSources := allResults.length
          sourcesAnalyzed := sourceCount
          sourceResults := allResults.map fun r =>
            { source := r.source, shouldIntervene := r.shouldIntervene,
              confidence := r.confidence, hasError := r.metadata.error } } } }

/-- JS `reduce` without seed over the intervention results:
`(best, current) => current.priority < best.priority ? current : best`. -/
def reducePick (best : GuidanceResult) : List GuidanceResult → GuidanceResult
  | [] => best
  | c :: rest => reducePick (if c.priority < best.priority then c else best) rest

/-- `composeFinalResponse` (part_004 lines 136-169): drop error results,
keep interveners, else "no guidance"; pick the lowest `priority`. -/
def composeFinalResponse (results : List GuidanceResult) : GuidanceResult :=
  match results.filter fun r => !r.metadata.error with
  | [] => createNoGuidanceResult "All guidance sources failed"
  | v :: vs =>
    match (v :: vs).filter (·.shouldIntervene) with
    | [] => createNoGuidanceResult "No intervention recommended"
    | c :: cs => composeResponse (v :: vs) (reducePick c cs)

/-- The outcome of the source loop of `generateGuidance`: either an early
short-circuit return or completion, carrying the gathered results and the
ids of the sources whose `analyze` was invoked, in invocation order. -/
inductive RunOutcome where
  | shortCircuit (results : List GuidanceResult) (primary : GuidanceResult)
      (invoked : List String)
  | completed (results : List GuidanceResult) (invoked : List String)
deriving DecidableEq

/-- The source loop of `generateGuidance` (part_004 lines 87-127): run each
source in order, catch throws as `errorResult` and continue, stop early when
`scTriggers`. -/
def runSources (ctx : AnalysisContext) : List Source → RunOutcome
  | [] => .completed [] []
  | s :: rest =>
    match s.analyze ctx with
    | .error msg =>
      match runSources ctx rest with
      | .shortCircuit rs p ids => .shortCircuit (errorResult s msg :: rs) p (s.id :: ids)
      | .completed rs ids => .completed (errorResult s msg :: rs) (s.id :: ids)
    | .ok r =>
      if scTriggers s r then .shortCircuit [r] r [s.id]
      else
        match runSources ctx rest with
        | .shortCircuit rs p ids => .shortCircuit (r :: rs) p (s.id :: ids)
        | .completed rs ids => .completed (r :: rs) (s.id :: ids)

/-- Stable insertion preserving registration order among equal priorities
(JS `Array.prototype.sort` is stable). -/
def insertByPriority (s : Source) : List Source → List Source
  | [] => [s]
  | t :: ts => if t.priority < s.priority then t :: insertByPriority s ts else s :: t :: ts

/-- `sort((a, b) => a.priority - b.priority)`: stable ascending sort. -/
def sortByPriority (sources : List Source) : List Source :=
  sources.foldr insertByPriority []

/-- `generateGuidance` (part_004 lines 67-131). -/
def generateGuidance (ctx : AnalysisContext) (sources : List Source) : GuidanceResult :=
  match sources with
  | [] => createNoGuidanceResult "No guidance sources available"
  | _ :: _ =>
    match runSources ctx (sortByPriority sources) with
    | .shortCircuit rs p _ => composeResponse rs p
    | .completed rs _ => composeFinalResponse rs

/-- The gathered results of a run outcome. -/
def RunOutcome.results : RunOutcome → List GuidanceResult
  | .shortCircuit rs _ _ => rs
  | .completed rs _ => rs

/-- The invoked source ids of a run outcome. -/
def RunOutcome.invoked : RunOutcome → List String
  | .shortCircuit _ _ ids => ids
  | .completed _ ids => ids

/-- Prepending already-gathered results and invocations to the outcome of
the remaining loop iterations. -/
def RunOutcome.prepend (rs : List GuidanceResult) (ids : List String) :
    RunOutcome → RunOutcome
  | .shortCircuit rs2 p ids2 => .shortCircuit (rs ++ rs2) p (ids ++ ids2)
  | .completed rs2 ids2 => .completed (rs ++ rs2) (ids ++ ids2)

/-! ## Autopilot monitor (src/services/autopilotMonitor.ts)

Timestamps are milliseconds since the epoch (`Date.getTime()`), modelled as
`Int`. `hoursSinceLastGuidance >= 1` with exact real division by
`1000*60*60` is equivalent to `now - last >= 3600000`, and the double
rounding of the JS division cannot flip that comparison. -/

/-- `AutopilotMonitorState` (per-session runtime state). -/
structure AutopilotMonitorState where
  isActive : Bool
  guidancesProvided : Nat
  lastGuidanceTime : Option Int := none
  analysisInProgress : Bool
deriving DecidableEq

/-- `canProvideGuidance` (autopilotMonitor.ts lines 145-160); the returned
state reflects the in-place counter reset. `maxGuidancesPerHour` comes from
the config; `now` is `Date.now()`. -/
def canProvideGuidance (maxGuidancesPerHour : Nat) (now : Int)
    (state : AutopilotMonitorState) : Bool × AutopilotMonitorState :=
  match state.lastGuidanceTime with
  | none => (true, state)
  | some last =>
    if 3600000 ≤ now - last then
      (true, { state with guidancesProvided := 0 })
    else
      (decide (state.guidancesProvided < maxGuidancesPerHour), state)

/-- The `AutopilotMonitor` instance together with the sessions' states: the
class holds a single `analysisTimer` field; `timerFor` records which
session's closure the current interval ticks with (`none`: no timer).
Sessions are identified by `Nat`; `sessions sid = none` models a session
whose `autopilotState` was never initialized. -/
structure MonitorWorld where
  sessions : Nat → Option AutopilotMonitorState
  timerFor : Option Nat
deriving Inhabited

/-- Pointwise update of the session table. -/
def setSession (f : Nat → Option AutopilotMonitorState) (sid : Nat)
    (v : Option AutopilotMonitorState) : Nat → Option AutopilotMonitorState :=
  fun k => if k = sid then v else f k

/-- `enable(session)` (autopilotMonitor.ts lines 33-51): lazily initialize
the state; no-op when already active; otherwise set `isActive` and
`startMonitoring`, which first clears any existing timer (lines 79-100). -/
def enable (w : MonitorWorld) (sid : Nat) : MonitorWorld :=
  let st0 : AutopilotMonitorState :=
    match w.sessions sid with
    | none => { isActive := false, guidancesProvided := 0, analysisInProgress := false }
    | some st => st
  let withInit := setSession w.sessions sid (some st0)
  if st0.isActive then { w with sessions := withInit }
  else
    { sessions := setSession withInit sid (some { st0 with isActive := true })
      timerFor := some sid }

/-- `disable(session)` (autopilotMonitor.ts lines 53-63): no-op when the
state is missing or inactive; otherwise clear `isActive` and
`stopMonitoring`, which clears the single timer field unconditionally. -/
def disable (w : MonitorWorld) (sid : Nat) : MonitorWorld :=
  match w.sessions sid with
  | none => w
  | some st =>
    if st.isActive then
      { sessions := setSession w.sessions sid (some { st with isActive := false })
        timerFor := none }
    else w

/-- A periodic analysis tick fires for session `sid` iff the single interval
is the one started for `sid` and the tick guard
(`isActive && !analysisInProgress`, lines 83-92) passes. -/
def tickRuns (w : MonitorWorld) (sid : Nat) : Bool :=
  w.timerFor == some sid &&
    match w.sessions sid with
    | some st => st.isActive && !st.analysisInProgress
    | none => false

/-! ## LLM client (src/services/llmClient.ts, current version)

`process.env` is modelled as an explicit map `ProcEnv` so that environment
(in)dependence is expressible; the class only reads `config.apiKeys`.
`JSON.parse` and the provider HTTP call are platform effects: the call
outcome is an oracle argument `gen` (`.error`: `generateText` threw with
that message; `.ok parsed`: it returned text whose `JSON.parse` outcome is
`parsed`). -/

/-- A parsed JSON value (`JSON.parse` result). -/
inductive Json where
  | null
  | bool (b : Bool)
  | num (q : ℚ)
  | str (s : String)
  | arr (elems : List Json)
  | obj (fields : List (String × Json))

/-- JS property access on a parsed JSON value, for non-null receivers:
objects look the key up (later duplicate keys win, as in `JSON.parse`);
every other receiver yields `undefined` (`none`). Access on `null` throws
and is handled separately in `analyzeResponse`. -/
def getField (j : Json) (key : String) : Option Json :=
  match j with
  | .obj fields => fields.foldl (fun acc p => if p.1 == key then some p.2 else acc) none
  | _ => none

/-- The validation of lines 195-205: `typeof shouldIntervene === 'boolean'`,
`typeof confidence === 'number'`, `typeof reasoning === 'string'`. -/
def validShape (j : Json) : Bool :=
  match getField j "shouldIntervene", getField j "confidence", getField j "reasoning" with
  | some (.bool _), some (.num _), some (.str _) => true
  | _, _, _ => false

/-- `AutopilotDecision`. -/
structure AutopilotDecision where
  shouldIntervene : Bool
  guidance : Option String := none
  confidence : ℚ
  reasoning : String
deriving DecidableEq

/-- The error categorization chain of the catch block
(llmClient.ts lines 211-250). -/
def categorizeError (providerName msg : String) : String :=
  if strIncludes msg "JSON parsing failed" then
    "LLM response parsing error: " ++ msg
  else if strIncludes msg "Invalid response structure" then
    "LLM returned invalid response format: " ++ msg
  else if strIncludes msg "fetch" || strIncludes msg "network" || strIncludes msg "timeout" then
    "Network error calling " ++ providerName ++ " API: " ++ msg
  else if strIncludes msg "401" || strIncludes msg "unauthorized" || strIncludes msg "API key" then
    "Authentication error with " ++ providerName ++ ": " ++ msg
  else if strIncludes msg "429" || strIncludes msg "rate limit" then
    "Rate limit exceeded for " ++ providerName ++ ": " ++ msg
  else if strIncludes msg "400" || strIncludes msg "bad request" then
    "Bad request to " ++ providerName ++ " API: " ++ msg
  else
    "Unexpected " ++ providerName ++ " API error: " ++ msg

/-- The fields of the returned `decision` object on the success path (the
defaults are unreachable once `validShape` holds). -/
def decodeDecision (j : Json) : AutopilotDecision :=
  { shouldIntervene := match getField j "shouldIntervene" with | some (.bool b) => b | _ => false
    confidence := match getField j "confidence" with | some (.num q) => q | _ => 0
    reasoning := match getField j "reasoning" with | some (.str s) => s | _ => ""
    guidance := match getField j "guidance" with | some (.str g) => some g | _ => none }

/-- Parse-and-validate (llmClient.ts lines 180-210) as an `Except`:
`.error` is the message of the exception reaching the catch block.
A parse failure is rethrown as `JSON parsing failed: ...`; property access
on a parsed `null` throws a `TypeError` (V8 message) before the shape test;
a shape failure throws `Invalid response structure from LLM`; on success the
parsed object's fields are returned. -/
def parseAndValidate (parsed : Except String Json) : Except String AutopilotDecision :=
  match parsed with
  | .error pmsg => .error ("JSON parsing failed: " ++ pmsg)
  | .ok .null => .error "Cannot read properties of null (reading 'shouldIntervene')"
  | .ok j =>
    if validShape j then .ok (decodeDecision j)
    else .error "Invalid response structure from LLM"

/-- Lines 180-257 of `analyzeClaudeOutput`: handle the model's response
text, catching every failure into a categorized non-intervening decision. -/
def analyzeResponse (providerName : String) (parsed : Except String Json) : AutopilotDecision :=
  match parseAndValidate parsed with
  | .ok d => d
  | .error msg =>
    { shouldIntervene := false, confidence := 0,
      reasoning := categorizeError providerName msg }

/-- Provider registry entry (name and supported model list; the model
constructors are effects outside the embedding). -/
structure ProviderInfo where
  name : String
  models : List String
deriving DecidableEq

/-- The module-level `PROVIDERS` registry. -/
def PROVIDERS (provider : String) : Option ProviderInfo :=
  if provider == "openai" then some { name := "OpenAI", models := ["gpt-4.1", "o4-mini", "o3"] }
  else if provider == "anthropic" then
    some { name := "Anthropic", models := ["claude-4-sonnet", "claude-4-opus"] }
  else none

/-- `AutopilotConfig` as consumed by `LLMClient`: `apiKeys` maps provider
keys to configured API key strings. -/
structure LLMConfig where
  provider : String
  model : String
  apiKeys : String → Option String

/-- `process.env` as an explicit map. -/
def ProcEnv : Type := String → Option String

/-- `getApiKeyForProvider` (lines 52-57): only `config.apiKeys`, no
environment fallback — `env` is deliberately not consulted. -/
def getApiKeyForProvider (cfg : LLMConfig) (_env : ProcEnv) (provider : String) :
    Option String :=
  cfg.apiKeys provider

/-- `isAvailable` (lines 44-50); `Boolean(apiKey)` is false for `undefined`
and for the empty string. -/
def isAvailable (cfg : LLMConfig) (env : ProcEnv) : Bool :=
  match PROVIDERS cfg.provider with
  | none => false
  | some _ =>
    match getApiKeyForProvider cfg env cfg.provider with
    | none => false
    | some key => !key.isEmpty

/-- `provider?.name ?? 'Provider'`. -/
def providerNameOrDefault (provider : String) : String :=
  match PROVIDERS provider with
  | some p => p.name
  | none => "Provider"

/-- `analyzeClaudeOutput` (lines 119-258): pre-flight availability,
provider and model checks, then the oracle call and response handling. -/
def analyzeClaudeOutput (cfg : LLMConfig) (env : ProcEnv)
    (gen : Except String (Except String Json)) : AutopilotDecision :=
  if !isAvailable cfg env then
    { shouldIntervene := false, confidence := 0,
      reasoning := providerNameOrDefault cfg.provider ++ " API key not configured" }
  else
    match PROVIDERS cfg.provider with
    | none =>
      { shouldIntervene := false, confidence := 0,
        reasoning := "Unknown provider: " ++ cfg.provider }
    | some p =>
      if !(p.models.contains cfg.model) then
        { shouldIntervene := false, confidence := 0,
          reasoning := "Unsupported model: " ++ cfg.model ++ " for provider " ++ p.name }
      else
        match getApiKeyForProvider cfg env cfg.provider with
        | none =>
          { shouldIntervene := false, confidence := 0,
            reasoning := "API key not available for " ++ p.name }
        | some _ =>
          match gen with
          | .error e =>
            { shouldIntervene := false, confidence := 0,
              reasoning := categorizeError p.name e }
          | .ok parsed => analyzeResponse p.name parsed

/-! ## Concrete instances used by witnesses and counterexamples -/

/-- A React/TypeScript project context with tests. -/
def ctxReact : ProjectContext :=
  { projectType := { framework := "react", language := "typescript" },
    gitStatus := none, hasTests := true }

/-- An analysis context with empty terminal output. -/
def ctxA : AnalysisContext := { terminalOutput := "" }

/-- A high-confidence intervening result from the pattern source. -/
def rHigh : GuidanceResult :=
  { shouldIntervene := true, confidence := mkRat 19 20,
    reasoning := "matched pattern", source := "pattern-detection", priority := 1 }

/-- A short-circuit-capable source returning `rHigh`. -/
def srcHigh : Source :=
  { id := "pattern-detection", priority := 1, canShortCircuit := true,
    analyze := fun _ => .ok rHigh }

/-- A low-confidence intervening result from the guide-prompt source. -/
def rLow : GuidanceResult :=
  { shouldIntervene := true, confidence := mkRat 1 2,
    reasoning := "llm suggestion", source := "guide-prompt", priority := 10 }

/-- The lowest-precedence source returning `rLow`. -/
def srcLow : Source :=
  { id := "guide-prompt", priority := 10, canShortCircuit := false,
    analyze := fun _ => .ok rLow }

/-- A source whose `analyze` throws. -/
def srcBoom : Source :=
  { id := "context-aware", priority := 5, canShortCircuit := false,
    analyze := fun _ => .error "boom" }

/-- The spec's priority-ordering example: `priority:10, shouldIntervene:true`. -/
def rPrio10 : GuidanceResult :=
  { shouldIntervene := true, confidence := mkRat 1 2,
    reasoning := "ten", source := "s10", priority := 10 }

/-- The spec's priority-ordering example: `priority:5, shouldIntervene:true`. -/
def rPrio5 : GuidanceResult :=
  { shouldIntervene := true, confidence := mkRat 1 2,
    reasoning := "five", source := "s5", priority := 5 }

/-- A monitor with no sessions initialized and no timer. -/
def emptyWorld : MonitorWorld := { sessions := fun _ => none, timerFor := none }

/-- A config whose `apiKeys` store holds no key at all. -/
def cfgNoKeys : LLMConfig :=
  { provider := "openai", model := "gpt-4.1", apiKeys := fun _ => none }

/-- An environment that does set the provider environment variables. -/
def envWithKeys : ProcEnv :=
  fun k => if k == "OPENAI_API_KEY" || k == "ANTHROPIC_API_KEY" then some "sk-env" else none

/-- An empty environment. -/
def envEmpty : ProcEnv := fun _ => none

end Casm

namespace Casm

/-! ## Helper lemmas -/

theorem charsStartWith_nil (l : List Char) : charsStartWith l [] = true := by
  cases l <;> rfl

theorem charsStartWith_append (n xs ys : List Char)
    (h : charsStartWith xs n = true) : charsStartWith (xs ++ ys) n = true := by
  induction n generalizing xs with
  | nil => exact charsStartWith_nil _
  | cons b bs ih =>
    cases xs with
    | nil => simp [charsStartWith] at h
    | cons a as =>
      rw [charsStartWith, Bool.and_eq_true] at h
      rw [List.cons_append, charsStartWith, Bool.and_eq_true]
      exact ⟨h.1, ih as h.2⟩

theorem charsIncl_of_startsWith (hay needle : List Char)
    (h : charsStartWith hay needle = true) : charsIncl hay needle = true := by
  cases hay with
  | nil =>
    cases needle with
    | nil => rfl
    | cons b bs => simp [charsStartWith] at h
  | cons a t => rw [charsIncl, Bool.or_eq_true]; exact Or.inl h

theorem strIncludes_append_of_starts (a b n : String)
    (h : charsStartWith a.toList n.toList = true) :
    strIncludes (a ++ b) n = true := by
  unfold strIncludes
  rw [show (a ++ b).toList = a.toList ++ b.toList from String.data_append a b]
  exact charsIncl_of_startsWith _ _ (charsStartWith_append _ _ _ h)

/-! ## C1 -/

/-- C1: for every `AutopilotMonitorState`, `canProvideGuidance` allows
analysis when no prior guidance has been given; when at least one hour
(3600000 ms) has elapsed since `lastGuidanceTime` it resets
`guidancesProvided` to 0 and allows; otherwise it allows exactly when
`guidancesProvided < maxGuidancesPerHour`. -/
theorem canProvideGuidance_spec (maxGuidancesPerHour : Nat) (now : Int)
    (state : AutopilotMonitorState) :
    (state.lastGuidanceTime = none →
      canProvideGuidance maxGuidancesPerHour now state = (true, state)) ∧
    (∀ last, state.lastGuidanceTime = some last → 3600000 ≤ now - last →
      canProvideGuidance maxGuidancesPerHour now state =
        (true, { state with guidancesProvided := 0 })) ∧
    (∀ last, state.lastGuidanceTime = some last → now - last < 3600000 →
      canProvideGuidance maxGuidancesPerHour now state =
        (decide (state.guidancesProvided < maxGuidancesPerHour), state)) := by
  refine ⟨fun h => ?_, fun last h hge => ?_, fun last h hlt => ?_⟩
  · simp [canProvideGuidance, h]
  · simp [canProvideGuidance, h, if_pos hge]
  · simp [canProvideGuidance, h, if_neg (not_le.mpr hlt)]

/-- Witness for C1 at the spec's window-rollover instance:
`guidancesProvided = 3`, `lastGuidanceTime` two hours in the past — the
check allows and resets the counter to 0. -/
theorem canProvideGuidance_spec_witness :
    canProvideGuidance 3 7200000
      { isActive := true, guidancesProvided := 3,
        lastGuidanceTime := some 0, analysisInProgress := false } =
      (true, { isActive := true, guidancesProvided := 0,
               lastGuidanceTime := some 0, analysisInProgress := false }) :=
  (canProvideGuidance_spec 3 7200000 _).2.1 0 rfl (by decide)

/-! ## C6 -/

/-- C6: for every dialog text and project context, if the normalized text
matches none of the five dialog families, `shouldAutoConfirm` returns the
safety default `shouldConfirm = false`, confidence 0,
`dialogType = "unknown"`. -/
theorem unknown_dialog_safe_default (text : String) (ctx : ProjectContext)
    (h1 : isTestRunningDialog (normalize text) = false)
    (h2 : isFileCreationDialog (normalize text) = false)
    (h3 : isPackageInstallDialog (normalize text) = false)
    (h4 : isBuildScriptDialog (normalize text) = false)
    (h5 : isGitOperationDialog (normalize text) = false) :
    shouldAutoConfirm text ctx = unknownDialogDecision ∧
    (shouldAutoConfirm text ctx).shouldConfirm = false ∧
    (shouldAutoConfirm text ctx).confidence = 0 ∧
    (shouldAutoConfirm text ctx).dialogType = "unknown" := by
  have h : shouldAutoConfirm text ctx = unknownDialogDecision := by
    unfold shouldAutoConfirm analyzeConfirmationDialog
    simp [h1, h2, h3, h4, h5]
  exact ⟨h, by rw [h]; rfl, by rw [h]; rfl, by rw [h]; rfl⟩

/-- Witness for C6 at the spec's instance
`"Do you want to format your hard drive?"`. -/
theorem unknown_dialog_safe_default_witness :
    shouldAutoConfirm "Do you want to format your hard drive?" ctxReact =
      unknownDialogDecision ∧
    (shouldAutoConfirm "Do you want to format your hard drive?" ctxReact).shouldConfirm = false ∧
    (shouldAutoConfirm "Do you want to format your hard drive?" ctxReact).confidence = 0 ∧
    (shouldAutoConfirm "Do you want to format your hard drive?" ctxReact).dialogType = "unknown" :=
  unknown_dialog_safe_default "Do you want to format your hard drive?" ctxReact
    (by decide) (by decide) (by decide) (by decide) (by decide)

/-! ## C10 -/

/-- C10: `LLMClient` reads provider credentials only from `config.apiKeys`:
`isAvailable` and `analyzeClaudeOutput` are unchanged under any change of
the process environment, and `isAvailable` is false whenever
`config.apiKeys` has no key for the configured provider, even if the
corresponding environment variable is set. -/
theorem llm_keys_only_from_config (cfg : LLMConfig) (env1 env2 : ProcEnv)
    (gen : Except String (Except String Json)) :
    isAvailable cfg env1 = isAvailable cfg env2 ∧
    analyzeClaudeOutput cfg env1 gen = analyzeClaudeOutput cfg env2 gen ∧
    (cfg.apiKeys cfg.provider = none → isAvailable cfg env1 = false) := by
  refine ⟨rfl, rfl, fun h => ?_⟩
  unfold isAvailable getApiKeyForProvider
  cases PROVIDERS cfg.provider with
  | none => rfl
  | some p => simp [h]

/-- Witness for C10: with no configured keys, `isAvailable` is false in an
environment that does set `OPENAI_API_KEY`, and equals its value in the
empty environment. -/
theorem llm_keys_only_from_config_witness :
    isAvailable cfgNoKeys envWithKeys = false ∧
    isAvailable cfgNoKeys envWithKeys = isAvailable cfgNoKeys envEmpty :=
  ⟨(llm_keys_only_from_config cfgNoKeys envWithKeys envEmpty (.error "e")).2.2 rfl,
   (llm_keys_only_from_config cfgNoKeys envWithKeys envEmpty (.error "e")).1⟩

/-! ## C7 -/

/-- C7 is refuted by the code: `handleGitOperationDialog` checks the staging
regex before the push regex, so the git-operation dialog
`"git add and push"` — which concerns pushing — is auto-confirmed with
confidence `0.9`, not rejected with confidence below `0.5`. -/
theorem git_push_autoconfirmed_counterexample :
    isGitOperationDialog (normalize "git add and push") = true ∧
    gitPushMatch (normalize "git add and push") = true ∧
    (shouldAutoConfirm "git add and push" ctxReact).shouldConfirm = true ∧
    (shouldAutoConfirm "git add and push" ctxReact).confidence = mkRat 9 10 := by
  refine ⟨by decide, by decide, by decide, by decide⟩

/-- C7 amended: for every dialog text classified as a git operation that
concerns pushing (matches `/push/`), *provided* it matches neither the
staging regex `/git.*add|stage.*file/` nor `/commit/` with pending git
changes, `shouldAutoConfirm` returns `shouldConfirm = false` with
confidence `0.4 < 0.5`. -/
theorem git_push_branch_spec (text : String) (ctx : ProjectContext)
    (h1 : isTestRunningDialog (normalize text) = false)
    (h2 : isFileCreationDialog (normalize text) = false)
    (h3 : isPackageInstallDialog (normalize text) = false)
    (h4 : isBuildScriptDialog (normalize text) = false)
    (h5 : isGitOperationDialog (normalize text) = true)
    (h6 : gitStagingMatch (normalize text) = false)
    (h7 : gitCommitMatch (normalize text) = false ∨ hasChanges ctx = false)
    (h8 : gitPushMatch (normalize text) = true) :
    shouldAutoConfirm text ctx =
      { shouldConfirm := false, confidence := mkRat 2 5,
        reasoning := "Push operations should be manually reviewed before execution",
        dialogType := "git-operation" } ∧
    (shouldAutoConfirm text ctx).confidence < mkRat 1 2 := by
  have h : shouldAutoConfirm text ctx =
      { shouldConfirm := false, confidence := mkRat 2 5,
        reasoning := "Push operations should be manually reviewed before execution",
        dialogType := "git-operation" } := by
    unfold shouldAutoConfirm analyzeConfirmationDialog handleGitOperationDialog
    rcases h7 with h7 | h7 <;> simp [h1, h2, h3, h4, h5, h6, h7, h8]
  exact ⟨h, by rw [h]; decide⟩

/-- Witness for the amended C7 at the input `"git push"`. -/
theorem git_push_branch_spec_witness :
    shouldAutoConfirm "git push" ctxReact =
      { shouldConfirm := false, confidence := mkRat 2 5,
        reasoning := "Push operations should be manually reviewed before execution",
        dialogType := "git-operation" } ∧
    (shouldAutoConfirm "git push" ctxReact).confidence < mkRat 1 2 :=
  git_push_branch_spec "git push" ctxReact (by decide) (by decide) (by decide)
    (by decide) (by decide) (by decide) (Or.inl (by decide)) (by decide)

/-! ## C8 -/

/-- C8: for every dialog text classified as a package installation whose
extracted package name (if any) fails `isKnownSafePackage` — the
per-framework/per-language allow-list plus the fixed lint/test tooling
list — `shouldAutoConfirm` returns `shouldConfirm = false` with the low
confidence `0.5`. -/
theorem unknown_package_rejected (text : String) (ctx : ProjectContext)
    (h1 : isTestRunningDialog (normalize text) = false)
    (h2 : isFileCreationDialog (normalize text) = false)
    (h3 : isPackageInstallDialog (normalize text) = true)
    (h4 : ∀ p, extractPackageName (normalize text).toList = some p →
      isKnownSafePackage (String.mk p) ctx.projectType = false) :
    shouldAutoConfirm text ctx =
      { shouldConfirm := false, confidence := mkRat 1 2,
        reasoning := "Package installation requires manual review for security and compatibility",
        dialogType := "package-install" } ∧
    (shouldAutoConfirm text ctx).shouldConfirm = false ∧
    (shouldAutoConfirm text ctx).confidence < mkRat 7 10 := by
  have h : shouldAutoConfirm text ctx =
      { shouldConfirm := false, confidence := mkRat 1 2,
        reasoning := "Package installation requires manual review for security and compatibility",
        dialogType := "package-install" } := by
    unfold shouldAutoConfirm analyzeConfirmationDialog handlePackageInstallDialog
    cases hE : extractPackageName (normalize text).toList with
    | none =>
      have hE' : extractPackageName (normalize text).data = none := hE
      simp [h1, h2, h3, hE']
    | some p =>
      have hE' : extractPackageName (normalize text).data = some p := hE
      simp [h1, h2, h3, hE', h4 p hE]
  exact ⟨h, by rw [h], by rw [h]; decide⟩

/-- Witness for C8 at the spec's instance
`"Do you want to install suspicious-package?"`. -/
theorem unknown_package_rejected_witness :
    shouldAutoConfirm "Do you want to install suspicious-package?" ctxReact =
      { shouldConfirm := false, confidence := mkRat 1 2,
        reasoning := "Package installation requires manual review for security and compatibility",
        dialogType := "package-install" } ∧
    (shouldAutoConfirm "Do you want to install suspicious-package?" ctxReact).shouldConfirm = false ∧
    (shouldAutoConfirm "Do you want to install suspicious-package?" ctxReact).confidence < mkRat 7 10 :=
  unknown_package_rejected "Do you want to install suspicious-package?" ctxReact
    (by decide) (by decide) (by decide)
    (fun p hp => by
      rw [show extractPackageName
          (normalize "Do you want to install suspicious-package?").toList =
          some ("suspicious-package".toList) from by decide] at hp
      injection hp with hp'
      subst hp'
      decide)

/-! ## C5 -/

/-- C5 is refuted by the code on the response body `"null"`: it is valid
JSON whose parsed value lacks a boolean `shouldIntervene`, and the result is
non-intervening with confidence 0 — but the property access on the parsed
`null` throws a `TypeError` whose message matches none of the
categorization keywords, so the `reasoning` is the catch-all
`"Unexpected ... API error"` string, which identifies neither a parsing nor
a response-shape error. -/
theorem analyzeResponse_null_counterexample :
    validShape Json.null = false ∧
    analyzeResponse "OpenAI" (.ok .null) =
      { shouldIntervene := false, confidence := 0,
        reasoning := "Unexpected OpenAI API error: Cannot read properties of null (reading 'shouldIntervene')" } ∧
    strIncludes (analyzeResponse "OpenAI" (.ok .null)).reasoning "parsing error" = false ∧
    strIncludes (analyzeResponse "OpenAI" (.ok .null)).reasoning "invalid response format" = false ∧
    strIncludes (analyzeResponse "OpenAI" (.ok .null)).reasoning "Invalid response structure" = false :=
  ⟨rfl, by decide, by decide, by decide, by decide⟩

/-- C5 amended: `analyzeClaudeOutput`'s response handling never throws to
the caller and always yields `shouldIntervene = false`, `confidence = 0` on
a bad response; when the text is not valid JSON the reasoning identifies a
parsing error, and when it parses to a non-null value of the wrong shape
the reasoning identifies an invalid response format — but when it parses to
JSON `null` the reasoning is the catch-all `"Unexpected ... API error"`
text of the null property access, identifying neither. -/
theorem llm_contract_validation_amended (providerName : String)
    (parsed : Except String Json) :
    (∀ e, parsed = .error e →
      analyzeResponse providerName parsed =
        { shouldIntervene := false, confidence := 0,
          reasoning := "LLM response parsing error: JSON parsing failed: " ++ e }) ∧
    (∀ j, parsed = .ok j → j ≠ .null → validShape j = false →
      analyzeResponse providerName parsed =
        { shouldIntervene := false, confidence := 0,
          reasoning := "LLM returned invalid response format: Invalid response structure from LLM" }) ∧
    (parsed = .ok .null →
      analyzeResponse providerName parsed =
        { shouldIntervene := false, confidence := 0,
          reasoning := "Unexpected " ++ providerName ++
            " API error: Cannot read properties of null (reading 'shouldIntervene')" }) := by
  refine ⟨fun e h => ?_, fun j h hnull hshape => ?_, fun h => ?_⟩
  · subst h
    have hkey : strIncludes ("JSON parsing failed: " ++ e) "JSON parsing failed" = true :=
      strIncludes_append_of_starts "JSON parsing failed: " e "JSON parsing failed" (by decide)
    simp [analyzeResponse, parseAndValidate, categorizeError, hkey]
    rw [← String.append_assoc]
    rfl
  · subst h
    have k1 : strIncludes "Invalid response structure from LLM" "JSON parsing failed" = false := by
      decide
    have k2 : strIncludes "Invalid response structure from LLM" "Invalid response structure" = true := by
      decide
    cases j with
    | null => exact absurd rfl hnull
    | bool b => simp [analyzeResponse, parseAndValidate, hshape, categorizeError, k1, k2]
    | num q => simp [analyzeResponse, parseAndValidate, hshape, categorizeError, k1, k2]
    | str s => simp [analyzeResponse, parseAndValidate, hshape, categorizeError, k1, k2]
    | arr l => simp [analyzeResponse, parseAndValidate, hshape, categorizeError, k1, k2]
    | obj l => simp [analyzeResponse, parseAndValidate, hshape, categorizeError, k1, k2]
  · subst h
    have n1 : strIncludes "Cannot read properties of null (reading 'shouldIntervene')" "JSON parsing failed" = false := by decide
    have n2 : strIncludes "Cannot read properties of null (reading 'shouldIntervene')" "Invalid response structure" = false := by decide
    have n3 : strIncludes "Cannot read properties of null (reading 'shouldIntervene')" "fetch" = false := by decide
    have n4 : strIncludes "Cannot read properties of null (reading 'shouldIntervene')" "network" = false := by decide
    have n5 : strIncludes "Cannot read properties of null (reading 'shouldIntervene')" "timeout" = false := by decide
    have n6 : strIncludes "Cannot read properties of null (reading 'shouldIntervene')" "401" = false := by decide
    have n7 : strIncludes "Cannot read properties of null (reading 'shouldIntervene')" "unauthorized" = false := by decide
    have n8 : strIncludes "Cannot read properties of null (reading 'shouldIntervene')" "API key" = false := by decide
    have n9 : strIncludes "Cannot read properties of null (reading 'shouldIntervene')" "429" = false := by decide
    have n10 : strIncludes "Cannot read properties of null (reading 'shouldIntervene')" "rate limit" = false := by decide
    have n11 : strIncludes "Cannot read properties of null (reading 'shouldIntervene')" "400" = false := by decide
    have n12 : strIncludes "Cannot read properties of null (reading 'shouldIntervene')" "bad request" = false := by decide
    simp [analyzeResponse, parseAndValidate, categorizeError,
      n1, n2, n3, n4, n5, n6, n7, n8, n9, n10, n11, n12]
    rw [String.append_assoc]
    rfl

/-- Witness for the amended C5: a parse failure and a wrong-shape (string)
response body each yield the identified non-intervening error decision. -/
theorem llm_contract_validation_amended_witness :
    analyzeResponse "OpenAI" (.error "Unexpected end of JSON input") =
      { shouldIntervene := false, confidence := 0,
        reasoning := "LLM response parsing error: JSON parsing failed: Unexpected end of JSON input" } ∧
    analyzeResponse "OpenAI" (.ok (.str "ok")) =
      { shouldIntervene := false, confidence := 0,
        reasoning := "LLM returned invalid response format: Invalid response structure from LLM" } :=
  ⟨(llm_contract_validation_amended "OpenAI" (.error "Unexpected end of JSON input")).1
      "Unexpected end of JSON input" rfl,
   (llm_contract_validation_amended "OpenAI" (.ok (.str "ok"))).2.1
      (.str "ok") rfl (fun h => Json.noConfusion h) rfl⟩

/-! ## C9 -/

theorem enable_sessions_other (w : MonitorWorld) (sid k : Nat) (h : k ≠ sid) :
    (enable w sid).sessions k = w.sessions k := by
  unfold enable
  cases hw : w.sessions sid with
  | none => simp [setSession, h]
  | some st => cases hst : st.isActive <;> simp [setSession, h, hst]

theorem enable_sessions_self_active (w : MonitorWorld) (sid : Nat) :
    ((enable w sid).sessions sid).map (·.isActive) = some true := by
  unfold enable
  cases hw : w.sessions sid with
  | none => simp [setSession]
  | some st => cases hst : st.isActive <;> simp [setSession, hst]

theorem enable_timerFor_of_inactive (w : MonitorWorld) (sid : Nat)
    (h : ((w.sessions sid).map (·.isActive)).getD false = false) :
    (enable w sid).timerFor = some sid := by
  unfold enable
  cases hw : w.sessions sid with
  | none => simp
  | some st =>
    have hst : st.isActive = false := by simpa [hw] using h
    simp [hst]

theorem disable_timerFor_of_active (w : MonitorWorld) (sid : Nat)
    (h : (w.sessions sid).map (·.isActive) = some true) :
    (disable w sid).timerFor = none := by
  unfold disable
  cases hw : w.sessions sid with
  | none => rw [hw] at h; simp at h
  | some st =>
    rw [hw] at h
    simp at h
    simp [h]

theorem tickRuns_timer_none (w : MonitorWorld) (h : w.timerFor = none) (sid : Nat) :
    tickRuns w sid = false := by
  simp [tickRuns, h]

theorem tickRuns_of_timer_ne (w : MonitorWorld) (sid : Nat)
    (h : w.timerFor ≠ some sid) : tickRuns w sid = false := by
  unfold tickRuns
  rw [show (w.timerFor == some sid) = false from beq_eq_false_iff_ne.mpr h,
    Bool.false_and]

/-- C9 is refuted by the code: `AutopilotMonitor` stores a single
`analysisTimer`. After enabling session 0 and then session 1, no tick fires
for session 0 although its state is still active; and disabling session 0
clears the (only) timer, so session 1's ticks stop although session 1 is
still active. -/
theorem shared_timer_counterexample :
    (tickRuns (enable (enable emptyWorld 0) 1) 0 = false ∧
      ((enable (enable emptyWorld 0) 1).sessions 0).map (·.isActive) = some true) ∧
    (tickRuns (disable (enable (enable emptyWorld 0) 1) 0) 1 = false ∧
      ((disable (enable (enable emptyWorld 0) 1) 0).sessions 1).map (·.isActive) =
        some true) :=
  ⟨⟨by decide, by decide⟩, ⟨by decide, by decide⟩⟩

/-- C9 amended: the monitor holds one timer shared by all sessions.
Enabling a session replaces the existing timer, so after enabling `s1` and
then a distinct `s2` (both previously inactive) the timer is `s2`'s and no
tick fires for `s1`; disabling either session clears the single timer, so
no tick fires for any session thereafter. -/
theorem single_timer_semantics (w : MonitorWorld) (s1 s2 : Nat) (hne : s1 ≠ s2)
    (h1 : ((w.sessions s1).map (·.isActive)).getD false = false)
    (h2 : ((w.sessions s2).map (·.isActive)).getD false = false) :
    (enable w s1).timerFor = some s1 ∧
    (enable (enable w s1) s2).timerFor = some s2 ∧
    tickRuns (enable (enable w s1) s2) s1 = false ∧
    (∀ sid, (disable (enable (enable w s1) s2) s1).timerFor = none ∧
      tickRuns (disable (enable (enable w s1) s2) s1) sid = false) ∧
    (∀ sid, (disable (enable (enable w s1) s2) s2).timerFor = none ∧
      tickRuns (disable (enable (enable w s1) s2) s2) sid = false) := by
  have hne' : s2 ≠ s1 := fun h => hne h.symm
  have h2' : (((enable w s1).sessions s2).map (·.isActive)).getD false = false := by
    rw [enable_sessions_other w s1 s2 hne']; exact h2
  have t2 : (enable (enable w s1) s2).timerFor = some s2 :=
    enable_timerFor_of_inactive _ s2 h2'
  have a1 : ((enable (enable w s1) s2).sessions s1).map (·.isActive) = some true := by
    rw [enable_sessions_other (enable w s1) s2 s1 hne]
    exact enable_sessions_self_active w s1
  have a2 : ((enable (enable w s1) s2).sessions s2).map (·.isActive) = some true :=
    enable_sessions_self_active _ s2
  refine ⟨enable_timerFor_of_inactive w s1 h1, t2, ?_, fun sid => ⟨?_, ?_⟩,
    fun sid => ⟨?_, ?_⟩⟩
  · exact tickRuns_of_timer_ne _ s1 (by rw [t2]; simp [hne'])
  · exact disable_timerFor_of_active _ s1 a1
  · exact tickRuns_timer_none _ (disable_timerFor_of_active _ s1 a1) sid
  · exact disable_timerFor_of_active _ s2 a2
  · exact tickRuns_timer_none _ (disable_timerFor_of_active _ s2 a2) sid

/-! ## Orchestrator lemmas -/

theorem reducePick_is_first_min (c : GuidanceResult) (cs : List GuidanceResult) :
    ∃ pre post, c :: cs = pre ++ reducePick c cs :: post ∧
      (∀ r ∈ pre, (reducePick c cs).priority < r.priority) ∧
      (∀ r ∈ c :: cs, (reducePick c cs).priority ≤ r.priority) := by
  induction cs generalizing c with
  | nil =>
    refine ⟨[], [], rfl, by simp, ?_⟩
    intro r hr
    rw [List.mem_singleton] at hr
    rw [hr]
    exact le_refl _
  | cons d t ih =>
    have hred : reducePick c (d :: t) =
        reducePick (if d.priority < c.priority then d else c) t := rfl
    rw [hred]
    by_cases hdc : d.priority < c.priority
    · rw [if_pos hdc]
      obtain ⟨pre, post, hdec, hpre, hmin⟩ := ih d
      refine ⟨c :: pre, post, ?_, ?_, ?_⟩
      · rw [List.cons_append, ← hdec]
      · intro r hr
        rcases List.mem_cons.mp hr with h | h
        · rw [h]
          exact lt_of_le_of_lt (hmin d (List.mem_cons_self d t)) hdc
        · exact hpre r h
      · intro r hr
        rcases List.mem_cons.mp hr with h | h
        · rw [h]
          exact le_of_lt (lt_of_le_of_lt (hmin d (List.mem_cons_self d t)) hdc)
        · exact hmin r h
    · rw [if_neg hdc]
      push_neg at hdc
      obtain ⟨pre, post, hdec, hpre, hmin⟩ := ih c
      cases pre with
      | nil =>
        rw [List.nil_append] at hdec
        injection hdec with h1 h2
        refine ⟨[], d :: post, ?_, by simp, ?_⟩
        · rw [List.nil_append, ← h1, h2]
        · intro r hr
          rcases List.mem_cons.mp hr with h | h
          · rw [h]
            exact hmin c (List.mem_cons_self c t)
          rcases List.mem_cons.mp h with h' | h'
          · rw [h', ← h1]
            exact hdc
          · exact hmin r (List.mem_cons_of_mem c h')
      | cons p ps =>
        rw [List.cons_append] at hdec
        injection hdec with h1 h2
        have hcp : (reducePick c t).priority < c.priority := by
          conv_rhs => rw [h1]
          exact hpre p (List.mem_cons_self p ps)
        refine ⟨c :: d :: ps, post, ?_, ?_, ?_⟩
        · rw [List.cons_append, List.cons_append, ← h2]
        · intro r hr
          rcases List.mem_cons.mp hr with h | h
          · rw [h]
            exact hcp
          rcases List.mem_cons.mp h with h' | h'
          · rw [h']
            exact lt_of_lt_of_le hcp hdc
          · exact hpre r (List.mem_cons_of_mem p h')
        · intro r hr
          rcases List.mem_cons.mp hr with h | h
          · rw [h]
            exact hmin c (List.mem_cons_self c t)
          rcases List.mem_cons.mp h with h' | h'
          · rw [h']
            exact le_of_lt (lt_of_lt_of_le hcp hdc)
          · exact hmin r (List.mem_cons_of_mem c h')

theorem runSources_append (ctx : AnalysisContext) (pre rest : List Source)
    (rs : List GuidanceResult) (ids : List String)
    (h : runSources ctx pre = .completed rs ids) :
    runSources ctx (pre ++ rest) = RunOutcome.prepend rs ids (runSources ctx rest) := by
  induction pre generalizing rs ids with
  | nil =>
    rw [show runSources ctx [] = .completed [] [] from rfl] at h
    injection h with h1 h2
    subst h1
    subst h2
    rw [List.nil_append]
    cases runSources ctx rest <;> simp [RunOutcome.prepend]
  | cons s ss ih =>
    rw [List.cons_append]
    cases hA : s.analyze ctx with
    | error msg =>
      simp only [runSources, hA] at h ⊢
      cases hR : runSources ctx ss with
      | shortCircuit a b c =>
        simp only [hR] at h
        exact RunOutcome.noConfusion h
      | completed rs' ids' =>
        simp only [hR, RunOutcome.completed.injEq] at h
        obtain ⟨h1, h2⟩ := h
        subst h1
        subst h2
        rw [ih rs' ids' hR]
        cases runSources ctx rest <;> simp [RunOutcome.prepend]
    | ok r =>
      cases hT : scTriggers s r with
      | true =>
        simp only [runSources, hA, hT, if_true] at h
        exact RunOutcome.noConfusion h
      | false =>
        simp only [runSources, hA, hT, Bool.false_eq_true, if_false] at h ⊢
        cases hR : runSources ctx ss with
        | shortCircuit a b c =>
        simp only [hR] at h
        exact RunOutcome.noConfusion h
        | completed rs' ids' =>
          simp only [hR, RunOutcome.completed.injEq] at h
          obtain ⟨h1, h2⟩ := h
          subst h1
          subst h2
          rw [ih rs' ids' hR]
          cases runSources ctx rest <;> simp [RunOutcome.prepend]

theorem runSources_completed_invoked (ctx : AnalysisContext) (l : List Source)
    (rs : List GuidanceResult) (ids : List String)
    (h : runSources ctx l = .completed rs ids) : ids = l.map (·.id) := by
  induction l generalizing rs ids with
  | nil =>
    rw [show runSources ctx [] = .completed [] [] from rfl] at h
    injection h with h1 h2
    rw [← h2]
    rfl
  | cons s ss ih =>
    cases hA : s.analyze ctx with
    | error msg =>
      simp only [runSources, hA] at h
      cases hR : runSources ctx ss with
      | shortCircuit a b c =>
        simp only [hR] at h
        exact RunOutcome.noConfusion h
      | completed rs' ids' =>
        simp only [hR, RunOutcome.completed.injEq] at h
        obtain ⟨h1, h2⟩ := h
        rw [← h2]
        simp [ih rs' ids' hR]
    | ok r =>
      cases hT : scTriggers s r with
      | true =>
        simp only [runSources, hA, hT, if_true] at h
        exact RunOutcome.noConfusion h
      | false =>
        simp only [runSources, hA, hT, Bool.false_eq_true, if_false] at h
        cases hR : runSources ctx ss with
        | shortCircuit a b c =>
        simp only [hR] at h
        exact RunOutcome.noConfusion h
        | completed rs' ids' =>
          simp only [hR, RunOutcome.completed.injEq] at h
          obtain ⟨h1, h2⟩ := h
          rw [← h2]
          simp [ih rs' ids' hR]

/-! ## C2 -/

/-- C2: for every list of per-source results, `composeFinalResponse` first
discards error-tagged results, then keeps only results with
`shouldIntervene = true`; if none remain it returns a non-intervening "no
guidance" result, and otherwise it composes the response around the result
with the lowest numeric `priority`, ties broken in favor of the result
encountered first. -/
theorem composeFinalResponse_selects_lowest_priority (results : List GuidanceResult) :
    ((results.filter fun r => !r.metadata.error).filter (·.shouldIntervene) = [] →
      (composeFinalResponse results).shouldIntervene = false ∧
      (composeFinalResponse results).confidence = 0) ∧
    (∀ c cs,
      (results.filter fun r => !r.metadata.error).filter (·.shouldIntervene) = c :: cs →
      ∃ pre post,
        c :: cs = pre ++ reducePick c cs :: post ∧
        (∀ r ∈ pre, (reducePick c cs).priority < r.priority) ∧
        (∀ r ∈ c :: cs, (reducePick c cs).priority ≤ r.priority) ∧
        composeFinalResponse results =
          composeResponse (results.filter fun r => !r.metadata.error) (reducePick c cs)) := by
  constructor
  · intro h
    unfold composeFinalResponse
    cases hv : results.filter fun r => !r.metadata.error with
    | nil => exact ⟨rfl, rfl⟩
    | cons v vs =>
      rw [hv] at h
      dsimp only
      rw [h]
      exact ⟨rfl, rfl⟩
  · intro c cs h
    obtain ⟨pre, post, hdec, hpre, hmin⟩ := reducePick_is_first_min c cs
    refine ⟨pre, post, hdec, hpre, hmin, ?_⟩
    unfold composeFinalResponse
    cases hv : results.filter fun r => !r.metadata.error with
    | nil => rw [hv] at h; simp at h
    | cons v vs =>
      rw [hv] at h
      dsimp only
      rw [h]

/-- Witness for C2 at the spec's priority-ordering example: between
intervening results of priority 10 and priority 5, the priority-5 result is
chosen. -/
theorem composeFinalResponse_selects_lowest_priority_witness :
    reducePick rPrio10 [rPrio5] = rPrio5 ∧
    (∃ pre post,
      rPrio10 :: [rPrio5] = pre ++ reducePick rPrio10 [rPrio5] :: post ∧
      (∀ r ∈ pre, (reducePick rPrio10 [rPrio5]).priority < r.priority) ∧
      (∀ r ∈ rPrio10 :: [rPrio5], (reducePick rPrio10 [rPrio5]).priority ≤ r.priority) ∧
      composeFinalResponse [rPrio10, rPrio5] =
        composeResponse ([rPrio10, rPrio5].filter fun r => !r.metadata.error)
          (reducePick rPrio10 [rPrio5])) :=
  ⟨by decide,
   (composeFinalResponse_selects_lowest_priority [rPrio10, rPrio5]).2 rPrio10 [rPrio5]
     (by decide)⟩

/-! ## C3 -/

/-- C3: during one `generateGuidance` run over the sorted source list
`pre ++ s :: post`, if no source in `pre` short-circuits, `s`'s result has
`shouldIntervene = true`, confidence at least 0.9 and `s` declares
`canShortCircuit`, then the loop stops at `s`: the invoked sources are
exactly `pre` and `s` (no source of `post` is invoked), and the response is
composed from only the results gathered so far. -/
theorem shortCircuit_stops_iteration (ctx : AnalysisContext)
    (sources pre post : List Source) (s : Source)
    (rs : List GuidanceResult) (ids : List String) (r : GuidanceResult)
    (hsort : sortByPriority sources = pre ++ s :: post)
    (hpre : runSources ctx pre = .completed rs ids)
    (hok : s.analyze ctx = .ok r)
    (hsc : scTriggers s r = true) :
    runSources ctx (pre ++ s :: post) = .shortCircuit (rs ++ [r]) r (ids ++ [s.id]) ∧
    (runSources ctx (pre ++ s :: post)).invoked = pre.map (·.id) ++ [s.id] ∧
    generateGuidance ctx sources = composeResponse (rs ++ [r]) r := by
  have h1 : runSources ctx (s :: post) = .shortCircuit [r] r [s.id] := by
    simp [runSources, hok, hsc]
  have h2 : runSources ctx (pre ++ s :: post) =
      .shortCircuit (rs ++ [r]) r (ids ++ [s.id]) := by
    rw [runSources_append ctx pre (s :: post) rs ids hpre, h1, RunOutcome.prepend]
  refine ⟨h2, ?_, ?_⟩
  · rw [h2, RunOutcome.invoked, runSources_completed_invoked ctx pre rs ids hpre]
  · cases sources with
    | nil => simp [sortByPriority] at hsort
    | cons a as =>
      unfold generateGuidance
      rw [hsort, h2]

/-- Witness for C3 at the spec's short-circuit example: a priority-1,
short-circuit-capable source answering with confidence 0.95 prevents the
lower-precedence source from running. -/
theorem shortCircuit_stops_iteration_witness :
    runSources ctxA ([] ++ srcHigh :: [srcLow]) =
      .shortCircuit ([] ++ [rHigh]) rHigh ([] ++ [srcHigh.id]) ∧
    (runSources ctxA ([] ++ srcHigh :: [srcLow])).invoked =
      ([] : List Source).map (·.id) ++ [srcHigh.id] ∧
    generateGuidance ctxA [srcHigh, srcLow] = composeResponse ([] ++ [rHigh]) rHigh :=
  shortCircuit_stops_iteration ctxA [srcHigh, srcLow] [] [srcLow] srcHigh [] [] rHigh
    rfl rfl rfl (by decide)

/-! ## C4 -/

/-- C4: a source whose `analyze` throws is substituted by a
`shouldIntervene = false`, confidence-0, error-tagged result; every source
after it is still invoked, and the final composition is unchanged by the
error result — so a later source's result can still be selected exactly as
if the failing source were absent. -/
theorem failing_source_isolated (ctx : AnalysisContext)
    (sources pre rest : List Source) (s : Source) (msg : String)
    (rs1 rs2 : List GuidanceResult) (ids1 ids2 : List String)
    (hsort : sortByPriority sources = pre ++ s :: rest)
    (hpre : runSources ctx pre = .completed rs1 ids1)
    (herr : s.analyze ctx = .error msg)
    (hrest : runSources ctx rest = .completed rs2 ids2) :
    runSources ctx (pre ++ s :: rest) =
      .completed (rs1 ++ errorResult s msg :: rs2) (ids1 ++ s.id :: ids2) ∧
    (errorResult s msg).shouldIntervene = false ∧
    (errorResult s msg).confidence = 0 ∧
    (errorResult s msg).metadata.error = true ∧
    ids2 = rest.map (·.id) ∧
    composeFinalResponse (rs1 ++ errorResult s msg :: rs2) =
      composeFinalResponse (rs1 ++ rs2) ∧
    generateGuidance ctx sources = composeFinalResponse (rs1 ++ rs2) := by
  have h1 : runSources ctx (s :: rest) =
      .completed (errorResult s msg :: rs2) (s.id :: ids2) := by
    simp [runSources, herr, hrest]
  have h2 : runSources ctx (pre ++ s :: rest) =
      .completed (rs1 ++ errorResult s msg :: rs2) (ids1 ++ s.id :: ids2) := by
    rw [runSources_append ctx pre (s :: rest) rs1 ids1 hpre, h1, RunOutcome.prepend]
  have hfil : (rs1 ++ errorResult s msg :: rs2).filter (fun r => !r.metadata.error) =
      (rs1 ++ rs2).filter (fun r => !r.metadata.error) := by
    simp [List.filter_append, errorResult]
  have hcomp : composeFinalResponse (rs1 ++ errorResult s msg :: rs2) =
      composeFinalResponse (rs1 ++ rs2) := by
    unfold composeFinalResponse
    rw [hfil]
  refine ⟨h2, rfl, rfl, rfl, runSources_completed_invoked ctx rest rs2 ids2 hrest,
    hcomp, ?_⟩
  cases sources with
  | nil => simp [sortByPriority] at hsort
  | cons a as =>
    unfold generateGuidance
    rw [hsort, h2]
    exact hcomp

/-- Witness for C4: a throwing mid-priority source is substituted by an
error-tagged result, the later source still runs, and the final response is
as if the failing source were absent. -/
theorem failing_source_isolated_witness :
    runSources ctxA ([] ++ srcBoom :: [srcLow]) =
      .completed ([] ++ errorResult srcBoom "boom" :: [rLow])
        ([] ++ srcBoom.id :: ["guide-prompt"]) ∧
    (errorResult srcBoom "boom").shouldIntervene = false ∧
    (errorResult srcBoom "boom").confidence = 0 ∧
    (errorResult srcBoom "boom").metadata.error = true ∧
    ["guide-prompt"] = [srcLow].map (·.id) ∧
    composeFinalResponse ([] ++ errorResult srcBoom "boom" :: [rLow]) =
      composeFinalResponse ([] ++ [rLow]) ∧
    generateGuidance ctxA [srcBoom, srcLow] = composeFinalResponse ([] ++ [rLow]) :=
  failing_source_isolated ctxA [srcBoom, srcLow] [] [srcLow] srcBoom "boom"
    [] [rLow] [] ["guide-prompt"] rfl rfl rfl (by decide)

/-- Witness for the amended C9 at two fresh sessions 0 and 1. -/
theorem single_timer_semantics_witness :
    (enable (enable emptyWorld 0) 1).timerFor = some 1 ∧
    tickRuns (enable (enable emptyWorld 0) 1) 0 = false ∧
    (disable (enable (enable emptyWorld 0) 1) 1).timerFor = none :=
  ⟨(single_timer_semantics emptyWorld 0 1 (by decide) rfl rfl).2.1,
   (single_timer_semantics emptyWorld 0 1 (by decide) rfl rfl).2.2.1,
   ((single_timer_semantics emptyWorld 0 1 (by decide) rfl rfl).2.2.2.2 0).1⟩

end Casm
